import Mathlib

/-!
Verification of the SRWToolkit control-panel communication layer.

This file gives a shallow embedding of the WebSocket/Redux communication
logic of the control panel, translated from
`src/frontend/controlpanel/src/store/actions/communicationActions.ts`,
`src/frontend/controlpanel/src/utils/index.ts` and the `ControlPanel`
component.  Thunks and handlers are modelled as functions producing a
trace of `Effect`s (Redux dispatches, localStorage operations, REST
calls, socket sends, timer starts), with the browser environment
(localStorage contents, JSON parsing, the socket ready state, REST
outcomes) passed in explicitly.  JavaScript `undefined`/`null` values
are modelled with `Option`; a missing field of a JSON object is `none`.
-/

set_option autoImplicit false

namespace SRWToolkit

/-- The localStorage key, from `utils/index.ts`: `LS_COMMUNICATION_ID_KEY = "communicationId"`. -/
def LS_COMMUNICATION_ID_KEY : String := "communicationId"

namespace socketReceiveMsgTypes

def UI_ERROR : String := "UI_ERROR"

def CLOSE_CONNECTION : String := "CLOSE_CONNECTION"

def INVALID_COMMUNICATION_ID : String := "INVALID_COMMUNICATION_ID"

def ERROR : String := "ERROR"

def IS_BOT_CONNECTED : String := "IS_BOT_CONNECTED"

def NEW_CONTROL_PANEL_DETECTED : String := "NEW_CONTROL_PANEL_DETECTED"

def SYSTEM_CONFIG : String := "SYSTEM_CONFIG"

def PING_STATE : String := "PING_STATE"

def USER_INPUT : String := "USER_INPUT"

end socketReceiveMsgTypes

namespace socketSendMsgTypes

def UPDATE_CONFIG : String := "UPDATE_CONFIG"

def PING : String := "PING"

def SEND_TEXT : String := "SEND_TEXT"

def SEND_AUDIO : String := "SEND_AUDIO"

end socketSendMsgTypes

/-- The nine keys of the `socketReceiveMsgTypes` object, as a list. -/
def socketReceiveTypeList : List String :=
  [socketReceiveMsgTypes.UI_ERROR, socketReceiveMsgTypes.CLOSE_CONNECTION,
   socketReceiveMsgTypes.INVALID_COMMUNICATION_ID, socketReceiveMsgTypes.ERROR,
   socketReceiveMsgTypes.IS_BOT_CONNECTED, socketReceiveMsgTypes.NEW_CONTROL_PANEL_DETECTED,
   socketReceiveMsgTypes.SYSTEM_CONFIG, socketReceiveMsgTypes.PING_STATE,
   socketReceiveMsgTypes.USER_INPUT]

/-- Modelled from the spec: the `ConnectionStatus` enum of the communication
Redux slice (`store/slices/communicationSlice`, whose source file is not among
the analysed sources).  The spec describes the connection state as
"connected/connecting/not-connected", and the action code assigns exactly the
members `CONNECTED`, `CONNECTING` and `NOT_CONNECTED`. -/
inductive ConnectionStatus where
  | CONNECTED
  | CONNECTING
  | NOT_CONNECTED
  deriving DecidableEq

/-- The `SnackbarType` enum of the global slice (values used: `ERROR`, `INFO`). -/
inductive SnackbarType where
  | ERROR
  | INFO
  deriving DecidableEq

/-- The snake_case wire-side config record carried in `SYSTEM_CONFIG` messages
and produced by `makeSocketConfig`.  Fields are the eight keys read by
`parseSocketConfig`; a key absent from the JSON object is `none`. -/
structure WireConfig where
  skin : Option String
  audio_enabled : Option Bool
  text_enabled : Option Bool
  llm_model : Option String
  voice_language_code : Option String
  voice_gender : Option String
  proactive_mode_enabled : Option Bool
  subtitles_enabled : Option Bool
  deriving DecidableEq

/-- The camelCase client-side `SystemConfig` (from the communication slice, as
used by the action code and the `ControlPanel` component). -/
structure SystemConfig where
  skin : Option String
  audioEnabled : Option Bool
  textEnabled : Option Bool
  llmModel : Option String
  voiceLanguageCode : Option String
  voiceGender : Option String
  proactiveModeEnabled : Option Bool
  subtitlesEnabled : Option Bool
  customPromptSuffix : Option String
  deriving DecidableEq

/-- The `data` field of an inbound socket message (`Record<string, any>`);
only the keys the router reads are modelled, each `none` when absent. -/
structure MsgData where
  message : Option String
  value : Option Bool
  is_bot_connected : Option Bool
  text : Option String
  audio : Option String
  config : WireConfig
  deriving DecidableEq

/-- The `SocketMessageResponse` interface of `utils/index.ts`:
a flat envelope `{type, data}`. -/
structure SocketMessageResponse where
  type : String
  data : MsgData
  deriving DecidableEq

/-- A `WireConfig` with every field absent. -/
def emptyWireConfig : WireConfig :=
  { skin := none, audio_enabled := none, text_enabled := none, llm_model := none,
    voice_language_code := none, voice_gender := none, proactive_mode_enabled := none,
    subtitles_enabled := none }

/-- The fallback envelope returned by `messageToJson` when `JSON.parse` throws:
`{data: {message: "Error parsing json!"}, type: UI_ERROR}`. -/
def jsonErrorEnvelope : SocketMessageResponse :=
  { type := socketReceiveMsgTypes.UI_ERROR,
    data := { message := some "Error parsing json!", value := none, is_bot_connected := none,
              text := none, audio := none, config := emptyWireConfig } }

/-- Models `messageToJson` from `utils/index.ts`.  `JSON.parse` is a platform
primitive; it is passed in as `parse`, with a throw modelled as `none`.
The `try` returns the parsed value, the `catch` returns the fallback envelope. -/
def messageToJson (parse : String → Option SocketMessageResponse) (data : String) :
    SocketMessageResponse :=
  match parse data with
  | some v => v
  | none => jsonErrorEnvelope

/-- JavaScript truthiness of an optional string: `undefined`/`null` and the
empty string are falsy. -/
def truthyStr : Option String → Bool
  | none => false
  | some s => s ≠ ""

/-- The JavaScript `String.prototype.trim` function, modelled over the character list:
leading and trailing whitespace characters are removed. -/
def jsTrim (s : String) : String :=
  String.mk (((s.data.dropWhile Char.isWhitespace).reverse.dropWhile Char.isWhitespace).reverse)

/-- The outbound payload under the `data` key of an outbound message. -/
inductive OutData where
  /-- Models `{config: ...}` as sent by `socketUpdateConfig`. -/
  | configData (config : WireConfig)
  /-- Models `{text: ...}` as sent by `sendTextToLLM`. -/
  | textData (text : String)
  /-- no `data` key, as in the ping message `{type: PING}`. -/
  | noData
  deriving DecidableEq

/-- An outbound socket message: a flat `{type, data}` envelope. -/
structure OutMessage where
  type : String
  data : OutData
  deriving DecidableEq

/-- Responses of the REST endpoint `createCommunication`. -/
structure CreateCommunicationResponse where
  communication_id : String
  deriving DecidableEq

/-- The parts of an axios-style error the failure handler reads:
`error?.response?.data?.detail` and `error?.message`. -/
structure ApiError where
  detail : Option String
  message : Option String
  deriving DecidableEq

/-- Outcome of the `createCommunication` REST call. -/
inductive CreateOutcome where
  | success (data : CreateCommunicationResponse)
  | failure (error : ApiError)
  deriving DecidableEq

/-- Response of the REST endpoint `getControlPanelConfig`. -/
structure ControlPanelConfigData where
  models : List String
  voices : List String
  genders : List String
  deriving DecidableEq

/-- The `WebSocket.readyState` values. -/
inductive ReadyState where
  | CONNECTING
  | OPEN
  | CLOSING
  | CLOSED
  deriving DecidableEq

/-- Redux actions dispatched by the communication action module.  `set*`
actions belong to the communication slice, `showSnackbar`/`doNothing` to the
global slice. -/
inductive Action where
  | setConnectionStatus (status : ConnectionStatus)
  | setConfig (config : SystemConfig)
  | setBotConnectedStatus (value : Option Bool)
  | setCommunicationId (id : String)
  | setLoading (loading : Bool)
  | setAvailableModels (models : List String)
  | setAvailableVoices (voices : List String)
  | setAvailableGenders (genders : List String)
  | showSnackbar (message : Option String) (kind : SnackbarType)
  | doNothing
  deriving DecidableEq

/-- One observable step taken by the communication action module. -/
inductive Effect where
  /-- dispatch a plain Redux action -/
  | dispatch (a : Action)
  /-- dispatch of the `loadOrCreateCommunication()` thunk (the reconnection attempt) -/
  | dispatchLoadOrCreate
  /-- Models `localStorage.getItem(key)` -/
  | lsGetItem (key : String)
  /-- Models `localStorage.setItem(key, value)` -/
  | lsSetItem (key : String) (value : String)
  /-- Models `localStorage.removeItem(key)` -/
  | lsRemoveItem (key : String)
  /-- the `createCommunication` REST call -/
  | apiCreateCommunication
  /-- the `getControlPanelConfig` REST call -/
  | apiGetControlPanelConfig
  /-- Models `initializeWebSocket(communicationId, ...)`, installing the four handlers -/
  | socketInit (communicationId : String)
  /-- Models `socket.send(JSON.stringify(m))` -/
  | socketSend (m : OutMessage)
  /-- Models `setInterval` of a callback attempting to send `m` every `intervalMs` milliseconds -/
  | startInterval (intervalMs : Nat) (m : OutMessage)
  /-- Models `clearInterval` (never emitted by the module; present so its absence is expressible) -/
  | clearInterval
  /-- Models `window.open(url)` -/
  | windowOpen (url : String)
  deriving DecidableEq

/-! ## The functions of `communicationActions.ts`, as trace functions -/

/-- Models `fetchControlPanelConfig`: calls `getControlPanelConfig`; `onSuccess`
dispatches the three availability lists (no `onFailure` handler is given). -/
def fetchControlPanelConfig (result : Option ControlPanelConfigData) : List Effect :=
  Effect.apiGetControlPanelConfig ::
    match result with
    | some data =>
        [Effect.dispatch (Action.setAvailableModels data.models),
         Effect.dispatch (Action.setAvailableVoices data.voices),
         Effect.dispatch (Action.setAvailableGenders data.genders)]
    | none => []

/-- Models `initAndHandleWebsocket`: assigns `socket := initializeWebSocket(...)`
with the four handlers. -/
def initAndHandleWebsocket (communicationId : String) : List Effect :=
  [Effect.socketInit communicationId]

/-- Models `loadOrCreateCommunicationSuccess`: stores the id in localStorage,
dispatches `setCommunicationId`, `setLoading(false)` and the websocket thunk. -/
def loadOrCreateCommunicationSuccess (data : CreateCommunicationResponse) : List Effect :=
  Effect.lsSetItem LS_COMMUNICATION_ID_KEY data.communication_id ::
    Effect.dispatch (Action.setCommunicationId data.communication_id) ::
    Effect.dispatch (Action.setLoading false) ::
    initAndHandleWebsocket data.communication_id

/-- The snackbar message chosen by the failure handler:
`error?.response?.data?.detail ?? error?.message ?? "Communication creation failed!"`. -/
def apiErrorMessage (error : ApiError) : String :=
  match error.detail with
  | some s => s
  | none =>
    match error.message with
    | some s => s
    | none => "Communication creation failed!"

/-- Models `loadOrCreateCommunicationFailure`: error snackbar, `setLoading(false)`,
`setConnectionStatus(NOT_CONNECTED)`. -/
def loadOrCreateCommunicationFailure (error : ApiError) : List Effect :=
  [Effect.dispatch (Action.showSnackbar (some (apiErrorMessage error)) SnackbarType.ERROR),
   Effect.dispatch (Action.setLoading false),
   Effect.dispatch (Action.setConnectionStatus ConnectionStatus.NOT_CONNECTED)]

/-- The `createCommunication` call of `loadOrCreateCommunication`, with its
`onSuccess`/`onFailure` continuations. -/
def createCommunicationCall (result : CreateOutcome) : List Effect :=
  Effect.apiCreateCommunication ::
    match result with
    | CreateOutcome.success data => loadOrCreateCommunicationSuccess data
    | CreateOutcome.failure error => loadOrCreateCommunicationFailure error

/-- Models `loadOrCreateCommunication`: `setLoading(true)`,
`setConnectionStatus(CONNECTING)`, then reads
`localStorage.getItem(LS_COMMUNICATION_ID_KEY)`; a truthy stored id is reused
(`setCommunicationId` + websocket init), otherwise `createCommunication` is
called.  `ls` is the current localStorage contents, `result` the REST outcome
used only on the create path. -/
def loadOrCreateCommunication (ls : String → Option String) (result : CreateOutcome) :
    List Effect :=
  Effect.dispatch (Action.setLoading true) ::
    Effect.dispatch (Action.setConnectionStatus ConnectionStatus.CONNECTING) ::
    Effect.lsGetItem LS_COMMUNICATION_ID_KEY ::
    match ls LS_COMMUNICATION_ID_KEY with
    | some communicationId =>
        if communicationId = "" then createCommunicationCall result
        else
          Effect.dispatch (Action.setCommunicationId communicationId) ::
            initAndHandleWebsocket communicationId
    | none => createCommunicationCall result

/-- Models `addNewBot`: opens the bot URL with the communication id and shows the
"Adding Bot" info snackbar.  `botUrl` is the environment-derived constant. -/
def addNewBot (botUrl : String) (communicationId : String) : List Effect :=
  [Effect.windowOpen (botUrl ++ "/?communication_id=" ++ communicationId),
   Effect.dispatch (Action.showSnackbar (some "Adding Bot") SnackbarType.INFO)]

/-- The `{type: PING}` heartbeat message. -/
def pingMessage : OutMessage :=
  { type := socketSendMsgTypes.PING, data := OutData.noData }

/-- Models `initPing`: `setInterval(() => handleSocketMessageSend({type: PING}), interval)`.
The source gives `interval` the default `5000`; the one call site passes `5000`. -/
def initPing (interval : Nat) : List Effect :=
  [Effect.startInterval interval pingMessage]

/-- Models `handleConnectionOnOpen`: calls `initPing(5000)` and returns (so the
wrapper dispatches) `setConnectionStatus(CONNECTED)`. -/
def handleConnectionOnOpen : List Effect :=
  initPing 5000 ++ [Effect.dispatch (Action.setConnectionStatus ConnectionStatus.CONNECTED)]

/-- Models `handleSocketOnError`: dispatches `setConnectionStatus(NOT_CONNECTED)`. -/
def handleSocketOnError : List Effect :=
  [Effect.dispatch (Action.setConnectionStatus ConnectionStatus.NOT_CONNECTED)]

/-- Models `handleSocketOnClose`: dispatches `setConnectionStatus(NOT_CONNECTED)`. -/
def handleSocketOnClose : List Effect :=
  [Effect.dispatch (Action.setConnectionStatus ConnectionStatus.NOT_CONNECTED)]

/-- Models `handleSocketMessageSend`: returns silently unless the socket exists and
its `readyState` is none of `CONNECTING`, `CLOSING`, `CLOSED`; otherwise sends
the serialized message.  `sock` is the ready state of the current socket (`none`
when `socket` is `null`). -/
def handleSocketMessageSend (sock : Option ReadyState) (data : OutMessage) : List Effect :=
  if sock = none ∨ sock = some ReadyState.CONNECTING ∨ sock = some ReadyState.CLOSING ∨
      sock = some ReadyState.CLOSED then
    []
  else
    [Effect.socketSend data]

/-- Models `parseSocketConfig`: snake_case wire record to camelCase `SystemConfig`;
`subtitles_enabled` defaults to `true` via `??`. -/
def parseSocketConfig (data : WireConfig) : SystemConfig :=
  { skin := data.skin,
    audioEnabled := data.audio_enabled,
    textEnabled := data.text_enabled,
    llmModel := data.llm_model,
    voiceLanguageCode := data.voice_language_code,
    voiceGender := data.voice_gender,
    proactiveModeEnabled := data.proactive_mode_enabled,
    subtitlesEnabled := some (data.subtitles_enabled.getD true),
    customPromptSuffix := none }

/-- Models `makeSocketConfig`: camelCase `SystemConfig` to snake_case wire record;
`subtitles_enabled` is `data.subtitlesEnabled !== undefined ? data.subtitlesEnabled : true`. -/
def makeSocketConfig (data : SystemConfig) : WireConfig :=
  { skin := data.skin,
    audio_enabled := data.audioEnabled,
    text_enabled := data.textEnabled,
    llm_model := data.llmModel,
    voice_language_code := data.voiceLanguageCode,
    voice_gender := data.voiceGender,
    proactive_mode_enabled := data.proactiveModeEnabled,
    subtitles_enabled := some (data.subtitlesEnabled.getD true) }

/-- Models `socketUpdateConfig`: sends `{type: UPDATE_CONFIG, data: {config: makeSocketConfig(config)}}`
through `handleSocketMessageSend` and returns `doNothing()` (which the caller
dispatches). -/
def socketUpdateConfig (sock : Option ReadyState) (config : SystemConfig) : List Effect :=
  handleSocketMessageSend sock
      { type := socketSendMsgTypes.UPDATE_CONFIG,
        data := OutData.configData (makeSocketConfig config) } ++
    [Effect.dispatch Action.doNothing]

/-- Models `sendTextToLLM`: a blank argument (`!text || !text.trim()`) yields only the
error snackbar; otherwise `{type: SEND_TEXT, data: {text}}` is handed to
`handleSocketMessageSend` and the info snackbar is shown. -/
def sendTextToLLM (sock : Option ReadyState) (text : String) : List Effect :=
  if text = "" ∨ jsTrim text = "" then
    [Effect.dispatch (Action.showSnackbar (some "Please provide text to send to the AI")
        SnackbarType.ERROR)]
  else
    handleSocketMessageSend sock
        { type := socketSendMsgTypes.SEND_TEXT, data := OutData.textData text } ++
      [Effect.dispatch (Action.showSnackbar (some "Sent text to AI") SnackbarType.INFO)]

/-- The `switch (type)` body of `handleSocketOnMessage`, acting on the decoded
envelope. -/
def routeMessage (msg : SocketMessageResponse) : List Effect :=
  if msg.type = socketReceiveMsgTypes.INVALID_COMMUNICATION_ID then
    [Effect.lsRemoveItem LS_COMMUNICATION_ID_KEY, Effect.dispatchLoadOrCreate]
  else if msg.type = socketReceiveMsgTypes.UI_ERROR then
    [Effect.dispatch (Action.showSnackbar msg.data.message SnackbarType.ERROR)]
  else if msg.type = socketReceiveMsgTypes.ERROR then
    if truthyStr msg.data.message then
      [Effect.dispatch (Action.showSnackbar msg.data.message SnackbarType.ERROR)]
    else []
  else if msg.type = socketReceiveMsgTypes.SYSTEM_CONFIG then
    [Effect.dispatch (Action.setConfig (parseSocketConfig msg.data.config))]
  else if msg.type = socketReceiveMsgTypes.CLOSE_CONNECTION then
    [Effect.dispatch (Action.showSnackbar msg.data.message SnackbarType.ERROR)]
  else if msg.type = socketReceiveMsgTypes.IS_BOT_CONNECTED then
    (if truthyStr msg.data.message then
        [Effect.dispatch (Action.showSnackbar msg.data.message SnackbarType.INFO)]
      else []) ++
      [Effect.dispatch (Action.setBotConnectedStatus msg.data.value)]
  else if msg.type = socketReceiveMsgTypes.PING_STATE then
    [Effect.dispatch (Action.setBotConnectedStatus (some (msg.data.is_bot_connected.getD false)))]
  else if msg.type = socketReceiveMsgTypes.USER_INPUT then
    if truthyStr msg.data.text then
      [Effect.dispatch (Action.showSnackbar (some ("User said: " ++ msg.data.text.getD ""))
          SnackbarType.INFO)]
    else if truthyStr msg.data.audio then
      [Effect.dispatch (Action.showSnackbar (some "User sent audio (forwarded to control panel)")
          SnackbarType.INFO)]
    else []
  else if msg.type = socketReceiveMsgTypes.NEW_CONTROL_PANEL_DETECTED then
    [Effect.dispatch (Action.showSnackbar msg.data.message SnackbarType.ERROR)]
  else
    [Effect.dispatch Action.doNothing]

/-- Models `handleSocketOnMessage`: decodes `event.data` with `messageToJson` and
routes on the `type` field. -/
def handleSocketOnMessage (parse : String → Option SocketMessageResponse)
    (eventData : String) : List Effect :=
  routeMessage (messageToJson parse eventData)

/-! ## Observers over effect traces -/

/-- The localStorage key an effect touches, if any. -/
def lsKeyOf : Effect → Option String
  | Effect.lsGetItem key => some key
  | Effect.lsSetItem key _ => some key
  | Effect.lsRemoveItem key => some key
  | _ => none

/-- Every localStorage access in the trace uses exactly `key`. -/
def lsOnlyKey (key : String) (es : List Effect) : Bool :=
  es.all fun e =>
    match lsKeyOf e with
    | some k => k == key
    | none => true

/-- The connection-status values a trace assigns, in order. -/
def connSets (es : List Effect) : List ConnectionStatus :=
  es.filterMap fun e =>
    match e with
    | Effect.dispatch (Action.setConnectionStatus s) => some s
    | _ => none

/-- Whether an effect is a socket send. -/
def isSocketSend : Effect → Bool
  | Effect.socketSend _ => true
  | _ => false

/-- The messages a trace sends on the socket, in order. -/
def socketSends (es : List Effect) : List OutMessage :=
  es.filterMap fun e =>
    match e with
    | Effect.socketSend m => some m
    | _ => none

/-- The interval timers a trace starts, in order. -/
def timerStarts (es : List Effect) : List (Nat × OutMessage) :=
  es.filterMap fun e =>
    match e with
    | Effect.startInterval i m => some (i, m)
    | _ => none

/-- Whether an effect cancels an interval timer. -/
def isTimerClear : Effect → Bool
  | Effect.clearInterval => true
  | _ => false

/-! ## The communication slice state, for last-write-wins -/

/-- The state of the communication slice, as read by the action module and the
`ControlPanel` component. -/
structure ClientState where
  connectionStatus : ConnectionStatus
  config : SystemConfig
  isBotConnected : Option Bool
  communicationId : Option String
  loading : Bool
  availableModels : List String
  availableVoices : List String
  availableGenders : List String
  deriving DecidableEq

/-- Modelled from the spec: the reducers of the communication Redux slice
(`store/slices/communicationSlice`, whose source file is not among the
analysed sources).  The spec describes the slices as "Redux state slices
mirroring that data into UI" with "last write wins": each `set*` action
replaces the corresponding field of the state with its payload, and the
global-slice actions `showSnackbar`/`doNothing` leave the communication
state unchanged. -/
def applyAction (s : ClientState) (a : Action) : ClientState :=
  match a with
  | Action.setConnectionStatus status => { s with connectionStatus := status }
  | Action.setConfig config => { s with config := config }
  | Action.setBotConnectedStatus value => { s with isBotConnected := value }
  | Action.setCommunicationId id => { s with communicationId := some id }
  | Action.setLoading loading => { s with loading := loading }
  | Action.setAvailableModels models => { s with availableModels := models }
  | Action.setAvailableVoices voices => { s with availableVoices := voices }
  | Action.setAvailableGenders genders => { s with availableGenders := genders }
  | Action.showSnackbar _ _ => s
  | Action.doNothing => s

/-- Runs the dispatched actions of a trace against the slice state; effects
other than plain dispatches do not touch the Redux store. -/
def applyEffects (s : ClientState) (es : List Effect) : ClientState :=
  es.foldl
    (fun st e =>
      match e with
      | Effect.dispatch a => applyAction st a
      | _ => st)
    s

/-- No effect of the trace is a `clearInterval`. -/
def noTimerClear (es : List Effect) : Bool :=
  es.all fun e => !(isTimerClear e)

/-- The traces of every function of the communication action module, at
arbitrary inputs: used to state properties of "every operation". -/
def moduleTraces (ls : String → Option String) (result : CreateOutcome)
    (data : CreateCommunicationResponse) (error : ApiError) (msg : SocketMessageResponse)
    (sock : Option ReadyState) (config : SystemConfig) (text : String)
    (cfgResult : Option ControlPanelConfigData) (botUrl communicationId : String)
    (m : OutMessage) (parse : String → Option SocketMessageResponse) (eventData : String)
    (interval : Nat) : List (List Effect) :=
  [fetchControlPanelConfig cfgResult,
   loadOrCreateCommunication ls result,
   loadOrCreateCommunicationSuccess data,
   loadOrCreateCommunicationFailure error,
   createCommunicationCall result,
   addNewBot botUrl communicationId,
   handleConnectionOnOpen,
   handleSocketOnMessage parse eventData,
   routeMessage msg,
   handleSocketOnError,
   handleSocketOnClose,
   handleSocketMessageSend sock m,
   initAndHandleWebsocket communicationId,
   socketUpdateConfig sock config,
   sendTextToLLM sock text,
   initPing interval]

/-! ## Sample inputs, used by the witnesses -/

/-- A sample inbound message payload. -/
def sampleMsgData : MsgData :=
  { message := some "m", value := some true, is_bot_connected := some false,
    text := some "hello", audio := none, config := emptyWireConfig }

/-- A sample wire config with every field present. -/
def sampleWireConfig : WireConfig :=
  { skin := some "simple", audio_enabled := some true, text_enabled := some false,
    llm_model := some "gpt", voice_language_code := some "en-US", voice_gender := some "FEMALE",
    proactive_mode_enabled := some false, subtitles_enabled := some false }

/-- A sample client config. -/
def sampleSystemConfig : SystemConfig :=
  parseSocketConfig sampleWireConfig

/-- A sample slice state. -/
def sampleState : ClientState :=
  { connectionStatus := ConnectionStatus.NOT_CONNECTED,
    config := { skin := none, audioEnabled := none, textEnabled := none, llmModel := none,
                voiceLanguageCode := none, voiceGender := none, proactiveModeEnabled := none,
                subtitlesEnabled := none, customPromptSuffix := none },
    isBotConnected := none, communicationId := none, loading := false,
    availableModels := [], availableVoices := [], availableGenders := [] }

/-! ## Theorems -/

/-- A string JS-trims to the empty string exactly when every character is
whitespace (in particular when it is empty). -/
theorem jsTrim_eq_empty_iff (s : String) :
    jsTrim s = "" ↔ s.data.all Char.isWhitespace := by
  rw [jsTrim, String.ext_iff]
  show ((s.data.dropWhile Char.isWhitespace).reverse.dropWhile Char.isWhitespace).reverse
      = ("" : String).data ↔ _
  show _ = ([] : List Char) ↔ _
  rw [List.reverse_eq_nil_iff, List.dropWhile_eq_nil_iff, List.all_eq_true]
  constructor
  · intro h x hx
    rw [← List.takeWhile_append_dropWhile Char.isWhitespace s.data] at hx
    rcases List.mem_append.mp hx with h1 | h2
    · exact List.mem_takeWhile_imp h1
    · exact h x (List.mem_reverse.mpr h2)
  · intro h x hx
    exact h x ((List.dropWhile_sublist Char.isWhitespace).subset (List.mem_reverse.mp hx))

/-- Claim C9: `parseSocketConfig` and `makeSocketConfig` are inverse
translations between the snake_case wire config and the camelCase client
config on the eight standard fields, with subtitles defaulting to enabled:
when `subtitles_enabled` is present the round trip is the identity on the
wire record, and an absent `subtitles_enabled` (resp. an undefined
`subtitlesEnabled`) translates to `true`. -/
theorem parse_make_socketConfig_roundtrip (r : WireConfig) (c : SystemConfig) :
    (∀ b, r.subtitles_enabled = some b → makeSocketConfig (parseSocketConfig r) = r)
  ∧ (r.subtitles_enabled = none → (parseSocketConfig r).subtitlesEnabled = some true)
  ∧ (c.subtitlesEnabled = none → (makeSocketConfig c).subtitles_enabled = some true)
  ∧ (∀ b, c.subtitlesEnabled = some b → (makeSocketConfig c).subtitles_enabled = some b) := by
  obtain ⟨sk, ae, te, lm, vl, vg, pm, se⟩ := r
  obtain ⟨csk, cae, cte, clm, cvl, cvg, cpm, cse, cps⟩ := c
  refine ⟨?_, ?_, ?_, ?_⟩
  · intro b hb
    cases hb
    rfl
  · intro hb
    cases hb
    rfl
  · intro hb
    cases hb
    rfl
  · intro b hb
    cases hb
    rfl

/-- Witness for the round-trip claim at a fully populated wire record and at
records without `subtitles_enabled`. -/
theorem parse_make_socketConfig_roundtrip_witness :
    makeSocketConfig (parseSocketConfig sampleWireConfig) = sampleWireConfig
  ∧ (parseSocketConfig emptyWireConfig).subtitlesEnabled = some true
  ∧ (makeSocketConfig (parseSocketConfig emptyWireConfig)).subtitles_enabled = some true :=
  ⟨(parse_make_socketConfig_roundtrip sampleWireConfig sampleSystemConfig).1 false rfl,
   (parse_make_socketConfig_roundtrip emptyWireConfig sampleSystemConfig).2.1 rfl,
   (parse_make_socketConfig_roundtrip emptyWireConfig
       (parseSocketConfig emptyWireConfig)).2.2.2 true rfl⟩

/-- Claim C10: `sendTextToLLM` rejects blank input without touching the
socket — a string whose characters are all whitespace yields only the error
snackbar and no socket send — while any other string is handed (untrimmed) to
`handleSocketMessageSend` as `{type: SEND_TEXT, data: {text}}` followed by the
info snackbar. -/
theorem sendTextToLLM_blank_guard (sock : Option ReadyState) (text : String) :
    (jsTrim text = "" →
      sendTextToLLM sock text =
        [Effect.dispatch (Action.showSnackbar (some "Please provide text to send to the AI")
            SnackbarType.ERROR)]
      ∧ socketSends (sendTextToLLM sock text) = [])
  ∧ (jsTrim text ≠ "" →
      sendTextToLLM sock text =
        handleSocketMessageSend sock
            { type := socketSendMsgTypes.SEND_TEXT, data := OutData.textData text } ++
          [Effect.dispatch (Action.showSnackbar (some "Sent text to AI") SnackbarType.INFO)]
      ∧ (sock = some ReadyState.OPEN →
          socketSends (sendTextToLLM sock text) =
            [{ type := socketSendMsgTypes.SEND_TEXT, data := OutData.textData text }]))
  ∧ (jsTrim text = "" ↔ text.data.all Char.isWhitespace) := by
  refine ⟨?_, ?_, jsTrim_eq_empty_iff text⟩
  · intro ht
    rw [sendTextToLLM, if_pos (Or.inr ht)]
    exact ⟨rfl, rfl⟩
  · intro ht
    have hne : ¬(text = "" ∨ jsTrim text = "") := by
      rintro (h1 | h2)
      · rw [h1] at ht
        exact ht rfl
      · exact ht h2
    rw [sendTextToLLM, if_neg hne]
    refine ⟨rfl, ?_⟩
    intro hs
    cases hs
    rfl

/-- Witness for the blank guard at a whitespace string and a real one. -/
theorem sendTextToLLM_blank_guard_witness :
    sendTextToLLM (some ReadyState.OPEN) " " =
      [Effect.dispatch (Action.showSnackbar (some "Please provide text to send to the AI")
          SnackbarType.ERROR)]
  ∧ socketSends (sendTextToLLM (some ReadyState.OPEN) "hi") =
      [{ type := socketSendMsgTypes.SEND_TEXT, data := OutData.textData "hi" }] :=
  ⟨((sendTextToLLM_blank_guard (some ReadyState.OPEN) " ").1 (by decide)).1,
   ((sendTextToLLM_blank_guard (some ReadyState.OPEN) "hi").2.1 (by decide)).2 rfl⟩

/-- Claim C8: `handleSocketMessageSend` sends exactly when the socket exists
and is `OPEN`, and otherwise returns with no send and no error; hence neither
a config update, a text send, nor a ping ever writes to a non-open socket. -/
theorem handleSocketMessageSend_only_open (sock : Option ReadyState) (m : OutMessage)
    (config : SystemConfig) (text : String) :
    (handleSocketMessageSend sock m =
      if sock = some ReadyState.OPEN then [Effect.socketSend m] else [])
  ∧ (sock ≠ some ReadyState.OPEN →
      handleSocketMessageSend sock m = []
      ∧ socketSends (socketUpdateConfig sock config) = []
      ∧ socketSends (sendTextToLLM sock text) = []
      ∧ socketSends (handleSocketMessageSend sock pingMessage) = []) := by
  have hmain : ∀ d : OutMessage, handleSocketMessageSend sock d =
      if sock = some ReadyState.OPEN then [Effect.socketSend d] else [] := by
    intro d
    rcases sock with _ | st
    · rfl
    · cases st <;> rfl
  refine ⟨hmain m, ?_⟩
  intro hne
  refine ⟨?_, ?_, ?_, ?_⟩
  · rw [hmain m, if_neg hne]
  · rw [socketUpdateConfig, hmain, if_neg hne]
    rfl
  · rw [sendTextToLLM]
    split
    · rfl
    · rw [hmain, if_neg hne]
      rfl
  · rw [hmain pingMessage, if_neg hne]
    rfl

/-- Witness for the send guard at a `CLOSED` socket and an `OPEN` one. -/
theorem handleSocketMessageSend_only_open_witness :
    handleSocketMessageSend (some ReadyState.CLOSED) pingMessage = []
  ∧ socketSends (sendTextToLLM (some ReadyState.CLOSED) "hi") = []
  ∧ handleSocketMessageSend (some ReadyState.OPEN) pingMessage =
      [Effect.socketSend pingMessage] :=
  ⟨((handleSocketMessageSend_only_open (some ReadyState.CLOSED) pingMessage
        sampleSystemConfig "hi").2 (by decide)).1,
   ((handleSocketMessageSend_only_open (some ReadyState.CLOSED) pingMessage
        sampleSystemConfig "hi").2 (by decide)).2.2.1,
   (handleSocketMessageSend_only_open (some ReadyState.OPEN) pingMessage
        sampleSystemConfig "hi").1⟩

/-- Claim C5: the decoder `messageToJson` is total — a successful parse is
returned as is, and a parse failure yields the `UI_ERROR` envelope with
message "Error parsing json!", which the router surfaces as an error
snackbar. -/
theorem messageToJson_total (parse : String → Option SocketMessageResponse) (s : String) :
    (∀ v, parse s = some v → messageToJson parse s = v)
  ∧ (parse s = none →
      messageToJson parse s = jsonErrorEnvelope
      ∧ (messageToJson parse s).type = socketReceiveMsgTypes.UI_ERROR
      ∧ (messageToJson parse s).data.message = some "Error parsing json!"
      ∧ handleSocketOnMessage parse s =
          [Effect.dispatch (Action.showSnackbar (some "Error parsing json!")
              SnackbarType.ERROR)]) := by
  refine ⟨?_, ?_⟩
  · intro v hv
    rw [messageToJson, hv]
  · intro hn
    rw [handleSocketOnMessage, messageToJson, hn]
    exact ⟨rfl, rfl, rfl, rfl⟩

/-- Witness for the decoder at a parse success and a parse failure. -/
theorem messageToJson_total_witness :
    messageToJson (fun _ => some jsonErrorEnvelope) "x" = jsonErrorEnvelope
  ∧ messageToJson (fun _ => none) "x" = jsonErrorEnvelope
  ∧ handleSocketOnMessage (fun _ => none) "x" =
      [Effect.dispatch (Action.showSnackbar (some "Error parsing json!") SnackbarType.ERROR)] :=
  ⟨(messageToJson_total (fun _ => some jsonErrorEnvelope) "x").1 jsonErrorEnvelope rfl,
   ((messageToJson_total (fun _ => none) "x").2 rfl).1,
   ((messageToJson_total (fun _ => none) "x").2 rfl).2.2.2⟩

/-- Claim C3: configuration synchronization is last-write-wins — on a
`SYSTEM_CONFIG` message the whole action of the router is to replace the config
state with `parseSocketConfig` of the `data.config` of the message, and the
resulting config does not depend on the previous state. -/
theorem systemConfig_last_write_wins (s : ClientState) (msg : SocketMessageResponse)
    (h : msg.type = socketReceiveMsgTypes.SYSTEM_CONFIG) :
    routeMessage msg = [Effect.dispatch (Action.setConfig (parseSocketConfig msg.data.config))]
  ∧ (applyEffects s (routeMessage msg)).config = parseSocketConfig msg.data.config := by
  obtain ⟨t, d⟩ := msg
  cases h
  exact ⟨rfl, rfl⟩

/-- Witness for last-write-wins at a concrete state and message. -/
theorem systemConfig_last_write_wins_witness :
    (applyEffects sampleState
        (routeMessage { type := "SYSTEM_CONFIG",
                        data := { sampleMsgData with config := sampleWireConfig } })).config =
      parseSocketConfig sampleWireConfig :=
  (systemConfig_last_write_wins sampleState
      { type := "SYSTEM_CONFIG", data := { sampleMsgData with config := sampleWireConfig } }
      rfl).2

/-- Claim C1: the router dispatches on the fixed set of nine string message
types — each of the nine takes exactly the actions of its case, and every message
with any other type dispatches only `doNothing`. -/
theorem router_fixed_dispatch (msg : SocketMessageResponse) :
    (msg.type ∉ socketReceiveTypeList →
      routeMessage msg = [Effect.dispatch Action.doNothing])
  ∧ (msg.type = socketReceiveMsgTypes.INVALID_COMMUNICATION_ID →
      routeMessage msg =
        [Effect.lsRemoveItem LS_COMMUNICATION_ID_KEY, Effect.dispatchLoadOrCreate])
  ∧ (msg.type = socketReceiveMsgTypes.UI_ERROR →
      routeMessage msg =
        [Effect.dispatch (Action.showSnackbar msg.data.message SnackbarType.ERROR)])
  ∧ (msg.type = socketReceiveMsgTypes.ERROR →
      routeMessage msg =
        if truthyStr msg.data.message then
          [Effect.dispatch (Action.showSnackbar msg.data.message SnackbarType.ERROR)]
        else [])
  ∧ (msg.type = socketReceiveMsgTypes.SYSTEM_CONFIG →
      routeMessage msg =
        [Effect.dispatch (Action.setConfig (parseSocketConfig msg.data.config))])
  ∧ (msg.type = socketReceiveMsgTypes.CLOSE_CONNECTION →
      routeMessage msg =
        [Effect.dispatch (Action.showSnackbar msg.data.message SnackbarType.ERROR)])
  ∧ (msg.type = socketReceiveMsgTypes.IS_BOT_CONNECTED →
      routeMessage msg =
        (if truthyStr msg.data.message then
            [Effect.dispatch (Action.showSnackbar msg.data.message SnackbarType.INFO)]
          else []) ++
          [Effect.dispatch (Action.setBotConnectedStatus msg.data.value)])
  ∧ (msg.type = socketReceiveMsgTypes.PING_STATE →
      routeMessage msg =
        [Effect.dispatch (Action.setBotConnectedStatus
            (some (msg.data.is_bot_connected.getD false)))])
  ∧ (msg.type = socketReceiveMsgTypes.USER_INPUT →
      routeMessage msg =
        if truthyStr msg.data.text then
          [Effect.dispatch (Action.showSnackbar
              (some ("User said: " ++ msg.data.text.getD "")) SnackbarType.INFO)]
        else if truthyStr msg.data.audio then
          [Effect.dispatch (Action.showSnackbar
              (some "User sent audio (forwarded to control panel)") SnackbarType.INFO)]
        else [])
  ∧ (msg.type = socketReceiveMsgTypes.NEW_CONTROL_PANEL_DETECTED →
      routeMessage msg =
        [Effect.dispatch (Action.showSnackbar msg.data.message SnackbarType.ERROR)]) := by
  refine ⟨?_, fun h => by rw [routeMessage, h]; rfl, fun h => by rw [routeMessage, h]; rfl,
    fun h => by rw [routeMessage, h]; rfl, fun h => by rw [routeMessage, h]; rfl,
    fun h => by rw [routeMessage, h]; rfl, fun h => by rw [routeMessage, h]; rfl,
    fun h => by rw [routeMessage, h]; rfl, fun h => by rw [routeMessage, h]; rfl,
    fun h => by rw [routeMessage, h]; rfl⟩
  intro h
  simp only [socketReceiveTypeList, List.mem_cons, List.not_mem_nil, or_false, not_or] at h
  obtain ⟨h1, h2, h3, h4, h5, h6, h7, h8, h9⟩ := h
  rw [routeMessage, if_neg h3, if_neg h1, if_neg h4, if_neg h7, if_neg h2, if_neg h5,
    if_neg h8, if_neg h9, if_neg h6]

/-- Witness for the router at an unknown type and at `UI_ERROR`. -/
theorem router_fixed_dispatch_witness :
    routeMessage { type := "SOMETHING_ELSE", data := sampleMsgData } =
      [Effect.dispatch Action.doNothing]
  ∧ routeMessage { type := "UI_ERROR", data := sampleMsgData } =
      [Effect.dispatch (Action.showSnackbar (some "m") SnackbarType.ERROR)] :=
  ⟨(router_fixed_dispatch { type := "SOMETHING_ELSE", data := sampleMsgData }).1 (by decide),
   (router_fixed_dispatch { type := "UI_ERROR", data := sampleMsgData }).2.2.1 rfl⟩

/-- A message whose type is not `INVALID_COMMUNICATION_ID` never makes the
router dispatch the reconnection thunk. -/
theorem dispatchLoadOrCreate_not_mem (msg : SocketMessageResponse)
    (h : msg.type ≠ socketReceiveMsgTypes.INVALID_COMMUNICATION_ID) :
    Effect.dispatchLoadOrCreate ∉ routeMessage msg := by
  rw [routeMessage, if_neg h]
  split_ifs <;> simp

/-- Claim C2: reconnection is a one-shot reaction to exactly one inbound
error code — the router re-dispatches `loadOrCreateCommunication` iff the
message type is `INVALID_COMMUNICATION_ID` (removing the stored id first),
and neither the socket error handler, the close handler, the open handler nor
the create-communication continuations ever trigger a reconnection. -/
theorem reconnect_only_on_invalid_id (msg : SocketMessageResponse) (error : ApiError)
    (data : CreateCommunicationResponse) :
    (Effect.dispatchLoadOrCreate ∈ routeMessage msg ↔
      msg.type = socketReceiveMsgTypes.INVALID_COMMUNICATION_ID)
  ∧ (msg.type = socketReceiveMsgTypes.INVALID_COMMUNICATION_ID →
      routeMessage msg =
        [Effect.lsRemoveItem LS_COMMUNICATION_ID_KEY, Effect.dispatchLoadOrCreate])
  ∧ Effect.dispatchLoadOrCreate ∉ handleSocketOnError
  ∧ Effect.dispatchLoadOrCreate ∉ handleSocketOnClose
  ∧ Effect.dispatchLoadOrCreate ∉ handleConnectionOnOpen
  ∧ Effect.dispatchLoadOrCreate ∉ loadOrCreateCommunicationFailure error
  ∧ Effect.dispatchLoadOrCreate ∉ loadOrCreateCommunicationSuccess data := by
  have hcase : msg.type = socketReceiveMsgTypes.INVALID_COMMUNICATION_ID →
      routeMessage msg =
        [Effect.lsRemoveItem LS_COMMUNICATION_ID_KEY, Effect.dispatchLoadOrCreate] := by
    intro h
    rw [routeMessage, h]
    rfl
  refine ⟨⟨fun hmem => ?_, fun h => ?_⟩, hcase, by decide, by decide, by decide,
    by simp [loadOrCreateCommunicationFailure],
    by simp [loadOrCreateCommunicationSuccess, initAndHandleWebsocket]⟩
  · by_contra hn
    exact dispatchLoadOrCreate_not_mem msg hn hmem
  · rw [hcase h]
    simp

/-- Witness for the reconnection claim at an `INVALID_COMMUNICATION_ID`
message and at an `ERROR` one. -/
theorem reconnect_only_on_invalid_id_witness :
    routeMessage { type := "INVALID_COMMUNICATION_ID", data := sampleMsgData } =
      [Effect.lsRemoveItem LS_COMMUNICATION_ID_KEY, Effect.dispatchLoadOrCreate]
  ∧ ¬Effect.dispatchLoadOrCreate ∈ routeMessage { type := "ERROR", data := sampleMsgData } :=
  ⟨(reconnect_only_on_invalid_id { type := "INVALID_COMMUNICATION_ID", data := sampleMsgData }
      { detail := none, message := none } { communication_id := "c" }).2.1 rfl,
   fun hmem =>
    absurd
      ((reconnect_only_on_invalid_id { type := "ERROR", data := sampleMsgData }
          { detail := none, message := none } { communication_id := "c" }).1.mp hmem)
      (by decide)⟩

/-- The connection-status assignments of a concatenated trace. -/
theorem connSets_append (a b : List Effect) : connSets (a ++ b) = connSets a ++ connSets b :=
  List.filterMap_append a b _

set_option maxHeartbeats 1600000 in
/-- Claim C4: the connection state machine has exactly the three states
connected/connecting/not-connected, and every operation assigns the status
deterministically — `loadOrCreateCommunication` first sets `CONNECTING`, the
open handler sets `CONNECTED`, the error handler, the close handler and the
creation-failure handler set `NOT_CONNECTED`, and no operation assigns any
other connection-status value. -/
theorem connection_state_machine (ls : String → Option String) (result : CreateOutcome)
    (error : ApiError) (data : CreateCommunicationResponse) (msg : SocketMessageResponse)
    (sock : Option ReadyState) (config : SystemConfig) (text : String)
    (cfgResult : Option ControlPanelConfigData) (botUrl communicationId : String)
    (m : OutMessage) :
    (∀ s : ConnectionStatus, s = ConnectionStatus.CONNECTED ∨ s = ConnectionStatus.CONNECTING ∨
        s = ConnectionStatus.NOT_CONNECTED)
  ∧ (connSets (loadOrCreateCommunication ls result)).head? = some ConnectionStatus.CONNECTING
  ∧ connSets handleConnectionOnOpen = [ConnectionStatus.CONNECTED]
  ∧ connSets handleSocketOnError = [ConnectionStatus.NOT_CONNECTED]
  ∧ connSets handleSocketOnClose = [ConnectionStatus.NOT_CONNECTED]
  ∧ connSets (loadOrCreateCommunicationFailure error) = [ConnectionStatus.NOT_CONNECTED]
  ∧ connSets (loadOrCreateCommunicationSuccess data) = []
  ∧ connSets (routeMessage msg) = []
  ∧ connSets (socketUpdateConfig sock config) = []
  ∧ connSets (sendTextToLLM sock text) = []
  ∧ connSets (handleSocketMessageSend sock m) = []
  ∧ connSets (fetchControlPanelConfig cfgResult) = []
  ∧ connSets (addNewBot botUrl communicationId) = []
  ∧ connSets (initAndHandleWebsocket communicationId) = []
  ∧ connSets (initPing 5000) = [] := by
  have hsend : ∀ (s : Option ReadyState) (d : OutMessage),
      connSets (handleSocketMessageSend s d) = [] := by
    intro s d
    rcases s with _ | st
    · rfl
    · cases st <;> rfl
  refine ⟨fun s => by cases s <;> simp, rfl, rfl, rfl, rfl, rfl, rfl, ?_, ?_, ?_, hsend sock m,
    ?_, rfl, rfl, rfl⟩
  · rw [routeMessage]
    split_ifs <;> rfl
  · rw [socketUpdateConfig, connSets_append, hsend sock _]
    rfl
  · rw [sendTextToLLM]
    split_ifs
    · rfl
    · rw [connSets_append, hsend sock _]
      rfl
  · cases cfgResult <;> rfl

set_option maxHeartbeats 1600000 in
/-- The router only ever touches the key `"communicationId"` in localStorage. -/
theorem lsOnlyKey_routeMessage (msg : SocketMessageResponse) :
    lsOnlyKey LS_COMMUNICATION_ID_KEY (routeMessage msg) = true := by
  rw [routeMessage]
  split_ifs <;> rfl

set_option maxHeartbeats 1600000 in
/-- Claim C6: persistence is limited to the single localStorage key
`"communicationId"` — every localStorage access of every operation of the
module uses exactly that key; the key is written with the new id when a
communication is created, `loadOrCreateCommunication` reuses a truthy stored
id without calling the create-communication endpoint and calls the endpoint
when nothing is stored, and the key is removed on an
`INVALID_COMMUNICATION_ID` message. -/
theorem localStorage_single_key (ls : String → Option String) (result : CreateOutcome)
    (data : CreateCommunicationResponse) (error : ApiError) (msg : SocketMessageResponse)
    (sock : Option ReadyState) (config : SystemConfig) (text : String)
    (cfgResult : Option ControlPanelConfigData) (botUrl communicationId : String)
    (m : OutMessage) (parse : String → Option SocketMessageResponse) (eventData : String)
    (interval : Nat) :
    (∀ es ∈ moduleTraces ls result data error msg sock config text cfgResult botUrl
        communicationId m parse eventData interval,
      lsOnlyKey LS_COMMUNICATION_ID_KEY es = true)
  ∧ Effect.lsSetItem LS_COMMUNICATION_ID_KEY data.communication_id ∈
      loadOrCreateCommunicationSuccess data
  ∧ (∀ id, ls LS_COMMUNICATION_ID_KEY = some id → id ≠ "" →
      loadOrCreateCommunication ls result =
        [Effect.dispatch (Action.setLoading true),
         Effect.dispatch (Action.setConnectionStatus ConnectionStatus.CONNECTING),
         Effect.lsGetItem LS_COMMUNICATION_ID_KEY,
         Effect.dispatch (Action.setCommunicationId id),
         Effect.socketInit id]
      ∧ Effect.apiCreateCommunication ∉ loadOrCreateCommunication ls result)
  ∧ (ls LS_COMMUNICATION_ID_KEY = none →
      Effect.apiCreateCommunication ∈ loadOrCreateCommunication ls result)
  ∧ (msg.type = socketReceiveMsgTypes.INVALID_COMMUNICATION_ID →
      Effect.lsRemoveItem LS_COMMUNICATION_ID_KEY ∈ routeMessage msg) := by
  have hsend : ∀ (s : Option ReadyState) (d : OutMessage),
      lsOnlyKey LS_COMMUNICATION_ID_KEY (handleSocketMessageSend s d) = true := by
    intro s d
    rcases s with _ | st
    · rfl
    · cases st <;> rfl
  have happend : ∀ a b : List Effect,
      lsOnlyKey LS_COMMUNICATION_ID_KEY (a ++ b) =
        (lsOnlyKey LS_COMMUNICATION_ID_KEY a && lsOnlyKey LS_COMMUNICATION_ID_KEY b) := by
    intro a b
    exact List.all_append
  refine ⟨?_, ?_, ?_, ?_, ?_⟩
  · intro es hes
    simp only [moduleTraces, List.mem_cons, List.not_mem_nil, or_false] at hes
    rcases hes with rfl | rfl | rfl | rfl | rfl | rfl | rfl | rfl | rfl | rfl | rfl | rfl |
      rfl | rfl | rfl | rfl
    · cases cfgResult <;> rfl
    · rw [loadOrCreateCommunication]
      split
      · split_ifs
        · cases result <;> rfl
        · rfl
      · cases result <;> rfl
    · rfl
    · rfl
    · cases result <;> rfl
    · rfl
    · rfl
    · exact lsOnlyKey_routeMessage _
    · exact lsOnlyKey_routeMessage _
    · rfl
    · rfl
    · exact hsend sock m
    · rfl
    · rw [socketUpdateConfig, happend, hsend sock _]
      rfl
    · rw [sendTextToLLM]
      split_ifs
      · rfl
      · rw [happend, hsend sock _]
        rfl
    · rfl
  · exact List.mem_cons_self _ _
  · intro id hid hne
    have heq : loadOrCreateCommunication ls result =
        [Effect.dispatch (Action.setLoading true),
         Effect.dispatch (Action.setConnectionStatus ConnectionStatus.CONNECTING),
         Effect.lsGetItem LS_COMMUNICATION_ID_KEY,
         Effect.dispatch (Action.setCommunicationId id),
         Effect.socketInit id] := by
      rw [loadOrCreateCommunication, hid]
      simp only [if_neg hne]
      rfl
    refine ⟨heq, ?_⟩
    rw [heq]
    simp
  · intro hnone
    rw [loadOrCreateCommunication, hnone]
    cases result <;> simp [createCommunicationCall, loadOrCreateCommunicationSuccess,
      loadOrCreateCommunicationFailure]
  · intro h
    rw [routeMessage, h]
    exact List.mem_cons_self _ _

/-- Witness for the single-key claim: the removal path of the router, the reuse of
a stored id, and the create call when nothing is stored. -/
theorem localStorage_single_key_witness :
    lsOnlyKey LS_COMMUNICATION_ID_KEY
        (routeMessage { type := "INVALID_COMMUNICATION_ID", data := sampleMsgData }) = true
  ∧ loadOrCreateCommunication (fun _ => some "abc")
        (CreateOutcome.failure { detail := none, message := none }) =
      [Effect.dispatch (Action.setLoading true),
       Effect.dispatch (Action.setConnectionStatus ConnectionStatus.CONNECTING),
       Effect.lsGetItem LS_COMMUNICATION_ID_KEY,
       Effect.dispatch (Action.setCommunicationId "abc"),
       Effect.socketInit "abc"]
  ∧ Effect.apiCreateCommunication ∈
      loadOrCreateCommunication (fun _ => none)
        (CreateOutcome.failure { detail := none, message := none })
  ∧ Effect.lsRemoveItem LS_COMMUNICATION_ID_KEY ∈
      routeMessage { type := "INVALID_COMMUNICATION_ID", data := sampleMsgData } :=
  ⟨(localStorage_single_key (fun _ => some "abc")
        (CreateOutcome.failure { detail := none, message := none })
        { communication_id := "c" } { detail := none, message := none }
        { type := "INVALID_COMMUNICATION_ID", data := sampleMsgData }
        none sampleSystemConfig "t" none "u" "c" pingMessage (fun _ => none) "e" 5000).1
      (routeMessage { type := "INVALID_COMMUNICATION_ID", data := sampleMsgData })
      (by simp [moduleTraces]),
   ((localStorage_single_key (fun _ => some "abc")
        (CreateOutcome.failure { detail := none, message := none })
        { communication_id := "c" } { detail := none, message := none }
        { type := "INVALID_COMMUNICATION_ID", data := sampleMsgData }
        none sampleSystemConfig "t" none "u" "c" pingMessage (fun _ => none) "e" 5000).2.2.1
      "abc" rfl (by decide)).1,
   (localStorage_single_key (fun _ => none)
        (CreateOutcome.failure { detail := none, message := none })
        { communication_id := "c" } { detail := none, message := none }
        { type := "INVALID_COMMUNICATION_ID", data := sampleMsgData }
        none sampleSystemConfig "t" none "u" "c" pingMessage (fun _ => none) "e" 5000).2.2.2.1
      rfl,
   (localStorage_single_key (fun _ => none)
        (CreateOutcome.failure { detail := none, message := none })
        { communication_id := "c" } { detail := none, message := none }
        { type := "INVALID_COMMUNICATION_ID", data := sampleMsgData }
        none sampleSystemConfig "t" none "u" "c" pingMessage (fun _ => none) "e" 5000).2.2.2.2
      rfl⟩

set_option maxHeartbeats 1600000 in
/-- The router never starts an interval timer. -/
theorem timerStarts_routeMessage (msg : SocketMessageResponse) :
    timerStarts (routeMessage msg) = [] := by
  rw [routeMessage]
  split_ifs <;> rfl

set_option maxHeartbeats 1600000 in
/-- The router never cancels an interval timer. -/
theorem noTimerClear_routeMessage (msg : SocketMessageResponse) :
    noTimerClear (routeMessage msg) = true := by
  rw [routeMessage]
  split_ifs <;> rfl

set_option maxHeartbeats 1600000 in
/-- Claim C7: the only concurrency coordination is the periodic heartbeat —
the socket open handler starts exactly one interval timer, of 5000 ms, whose
tick attempts to send `{type: PING}` through `handleSocketMessageSend`; no
other operation of the module starts an interval timer, and no operation ever
cancels one (`clearInterval` appears in no trace). -/
theorem heartbeat_only_timer (ls : String → Option String) (result : CreateOutcome)
    (data : CreateCommunicationResponse) (error : ApiError) (msg : SocketMessageResponse)
    (sock : Option ReadyState) (config : SystemConfig) (text : String)
    (cfgResult : Option ControlPanelConfigData) (botUrl communicationId : String)
    (m : OutMessage) (parse : String → Option SocketMessageResponse) (eventData : String)
    (interval : Nat) :
    initPing 5000 = [Effect.startInterval 5000 pingMessage]
  ∧ timerStarts handleConnectionOnOpen = [(5000, pingMessage)]
  ∧ pingMessage = { type := socketSendMsgTypes.PING, data := OutData.noData }
  ∧ (∀ s : Option ReadyState, handleSocketMessageSend s pingMessage =
      if s = some ReadyState.OPEN then [Effect.socketSend pingMessage] else [])
  ∧ (∀ es ∈ moduleTraces ls result data error msg sock config text cfgResult botUrl
        communicationId m parse eventData interval, noTimerClear es = true)
  ∧ timerStarts (fetchControlPanelConfig cfgResult) = []
  ∧ timerStarts (loadOrCreateCommunication ls result) = []
  ∧ timerStarts (loadOrCreateCommunicationSuccess data) = []
  ∧ timerStarts (loadOrCreateCommunicationFailure error) = []
  ∧ timerStarts (createCommunicationCall result) = []
  ∧ timerStarts (addNewBot botUrl communicationId) = []
  ∧ timerStarts (routeMessage msg) = []
  ∧ timerStarts (handleSocketOnMessage parse eventData) = []
  ∧ timerStarts handleSocketOnError = []
  ∧ timerStarts handleSocketOnClose = []
  ∧ timerStarts (handleSocketMessageSend sock m) = []
  ∧ timerStarts (initAndHandleWebsocket communicationId) = []
  ∧ timerStarts (socketUpdateConfig sock config) = []
  ∧ timerStarts (sendTextToLLM sock text) = [] := by
  have hsend : ∀ (s : Option ReadyState) (d : OutMessage),
      timerStarts (handleSocketMessageSend s d) = [] := by
    intro s d
    rcases s with _ | st
    · rfl
    · cases st <;> rfl
  have hsendclear : ∀ (s : Option ReadyState) (d : OutMessage),
      noTimerClear (handleSocketMessageSend s d) = true := by
    intro s d
    rcases s with _ | st
    · rfl
    · cases st <;> rfl
  have happend : ∀ a b : List Effect,
      noTimerClear (a ++ b) = (noTimerClear a && noTimerClear b) := by
    intro a b
    exact List.all_append
  have htsappend : ∀ a b : List Effect,
      timerStarts (a ++ b) = timerStarts a ++ timerStarts b := by
    intro a b
    exact List.filterMap_append a b _
  refine ⟨rfl, rfl, rfl, ?_, ?_, ?_, ?_, rfl, rfl, ?_, rfl, timerStarts_routeMessage msg,
    timerStarts_routeMessage _, rfl, rfl, hsend sock m, rfl, ?_, ?_⟩
  · intro s
    rcases s with _ | st
    · rfl
    · cases st <;> rfl
  · intro es hes
    simp only [moduleTraces, List.mem_cons, List.not_mem_nil, or_false] at hes
    rcases hes with rfl | rfl | rfl | rfl | rfl | rfl | rfl | rfl | rfl | rfl | rfl | rfl |
      rfl | rfl | rfl | rfl
    · cases cfgResult <;> rfl
    · rw [loadOrCreateCommunication]
      split
      · split_ifs
        · cases result <;> rfl
        · rfl
      · cases result <;> rfl
    · rfl
    · rfl
    · cases result <;> rfl
    · rfl
    · rfl
    · exact noTimerClear_routeMessage _
    · exact noTimerClear_routeMessage _
    · rfl
    · rfl
    · exact hsendclear sock m
    · rfl
    · rw [socketUpdateConfig, happend, hsendclear sock _]
      rfl
    · rw [sendTextToLLM]
      split_ifs
      · rfl
      · rw [happend, hsendclear sock _]
        rfl
    · rfl
  · cases cfgResult <;> rfl
  · rw [loadOrCreateCommunication]
    split
    · split_ifs
      · cases result <;> rfl
      · rfl
    · cases result <;> rfl
  · cases result <;> rfl
  · rw [socketUpdateConfig, htsappend, hsend sock _]
    rfl
  · rw [sendTextToLLM]
    split_ifs
    · rfl
    · rw [htsappend, hsend sock _]
      rfl

/-- Witness for the heartbeat claim: tick behavior on an open and a closed
socket, and absence of `clearInterval` in the trace of the open handler. -/
theorem heartbeat_only_timer_witness :
    handleSocketMessageSend (some ReadyState.OPEN) pingMessage =
      [Effect.socketSend pingMessage]
  ∧ noTimerClear handleConnectionOnOpen = true :=
  ⟨((heartbeat_only_timer (fun _ => none)
        (CreateOutcome.failure { detail := none, message := none })
        { communication_id := "c" } { detail := none, message := none }
        { type := "PING_STATE", data := sampleMsgData }
        none sampleSystemConfig "t" none "u" "c" pingMessage (fun _ => none) "e" 5000).2.2.2.1
      (some ReadyState.OPEN)).trans (by decide),
   (heartbeat_only_timer (fun _ => none)
        (CreateOutcome.failure { detail := none, message := none })
        { communication_id := "c" } { detail := none, message := none }
        { type := "PING_STATE", data := sampleMsgData }
        none sampleSystemConfig "t" none "u" "c" pingMessage (fun _ => none) "e" 5000).2.2.2.2.1
      handleConnectionOnOpen (by simp [moduleTraces])⟩

end SRWToolkit
